import Mathlib

set_option maxHeartbeats 1000000

/-!
Shallow embedding of `src/LPEDT_Firmware/LPEDT_Miner_Safety_Project/src/scheduler.c`
(the event scheduler, the temperature acquisition state machine and the
BLE discovery state machine), together with theorems checking the
specification's claims against it.
-/

/-- Bit position of the LETIMER underflow event flag (scheduler.c line 33). -/
def LETIMERUF_BIT_POS : Nat := 0

/-- Bit position of the LETIMER COMP1 event flag (scheduler.c line 34). -/
def LETIMERCOMP1_BIT_POS : Nat := 1

/-- Bit position of the I2C transfer complete event flag (scheduler.c line 35). -/
def I2C_TRANSFER_COMPLETE_BIT_POS : Nat := 2

/-- Modelled from the spec: the event kinds returned by the scheduler consumer.
The EVENT\_* constants live in scheduler.h, which is not among the sources; the
spec describes them as the three prioritized event kinds plus a sentinel
"none" value, so they are modelled as a four-element enumeration. -/
inductive Event where
  | EVENT_NONE
  | EVENT_LETIMER_UF
  | EVENT_LETIMER_COMP1
  | EVENT_I2C_TRANSFER_COMPLETE
  deriving DecidableEq, Repr

/-- scheduler.c `getNextEvent` (lines 166-203).  The C function reads the
global `SchedulerEvents` uint32 bitmask, picks the highest-priority pending
event (I2C transfer complete, then LETIMER COMP1, then LETIMER UF), clears
exactly that bit with `SchedulerEvents &= ~(1 << pos)` and returns the event
(or EVENT\_NONE).  The global is passed and returned explicitly here;
`~(1 << pos)` on a uint32 is `(2^32 - 1) ^^^ (1 <<< pos)`. -/
def getNextEvent (SchedulerEvents : Nat) : Event × Nat :=
  let ReturnEvent :=
    if SchedulerEvents.testBit I2C_TRANSFER_COMPLETE_BIT_POS then
      Event.EVENT_I2C_TRANSFER_COMPLETE
    else if SchedulerEvents.testBit LETIMERCOMP1_BIT_POS then
      Event.EVENT_LETIMER_COMP1
    else if SchedulerEvents.testBit LETIMERUF_BIT_POS then
      Event.EVENT_LETIMER_UF
    else
      Event.EVENT_NONE
  let SchedulerEventsAfter :=
    match ReturnEvent with
    | Event.EVENT_LETIMER_COMP1 =>
        SchedulerEvents &&& ((2 ^ 32 - 1) ^^^ (1 <<< LETIMERCOMP1_BIT_POS))
    | Event.EVENT_LETIMER_UF =>
        SchedulerEvents &&& ((2 ^ 32 - 1) ^^^ (1 <<< LETIMERUF_BIT_POS))
    | Event.EVENT_I2C_TRANSFER_COMPLETE =>
        SchedulerEvents &&& ((2 ^ 32 - 1) ^^^ (1 <<< I2C_TRANSFER_COMPLETE_BIT_POS))
    | Event.EVENT_NONE => SchedulerEvents
  (ReturnEvent, SchedulerEventsAfter)

/-- The scheduler bit position consumed by a returned event kind
(none for the sentinel EVENT\_NONE). -/
def eventBitPos : Event → Option Nat
  | Event.EVENT_NONE => none
  | Event.EVENT_LETIMER_UF => some LETIMERUF_BIT_POS
  | Event.EVENT_LETIMER_COMP1 => some LETIMERCOMP1_BIT_POS
  | Event.EVENT_I2C_TRANSFER_COMPLETE => some I2C_TRANSFER_COMPLETE_BIT_POS

lemma clearBit_testBit (m pos i : Nat) (hm : m < 2 ^ 32) :
    (m &&& ((2 ^ 32 - 1) ^^^ (1 <<< pos))).testBit i =
      (m.testBit i && !(decide (pos = i))) := by
  have hones : ∀ j : Nat, (4294967295 : Nat).testBit j = decide (j < 32) := by
    intro j
    have h : (4294967295 : Nat) = 2 ^ 32 - 1 := by norm_num
    rw [h, Nat.testBit_two_pow_sub_one]
  rcases Nat.lt_or_ge i 32 with hi | hi
  · simp [Nat.testBit_land, Nat.testBit_xor, Nat.one_shiftLeft,
      Nat.testBit_two_pow, hones, hi]
  · have h1 : m.testBit i = false := by
      apply Nat.testBit_lt_two_pow
      exact lt_of_lt_of_le hm (Nat.pow_le_pow_right (by norm_num) hi)
    have h2 : (m &&& ((2 ^ 32 - 1) ^^^ (1 <<< pos))).testBit i = false := by
      simp [Nat.testBit_land, h1]
    simp [h1, h2]

example : getNextEvent 7 = (Event.EVENT_I2C_TRANSFER_COMPLETE, 3) := by decide

example : getNextEvent 3 = (Event.EVENT_LETIMER_COMP1, 1) := by decide

example : getNextEvent 0 = (Event.EVENT_NONE, 0) := by decide

lemma getNextEvent_cases (m : Nat) :
    (getNextEvent m =
        (Event.EVENT_I2C_TRANSFER_COMPLETE, m &&& ((2 ^ 32 - 1) ^^^ (1 <<< 2))) ∧
      m.testBit 2 = true) ∨
    (getNextEvent m =
        (Event.EVENT_LETIMER_COMP1, m &&& ((2 ^ 32 - 1) ^^^ (1 <<< 1))) ∧
      m.testBit 2 = false ∧ m.testBit 1 = true) ∨
    (getNextEvent m =
        (Event.EVENT_LETIMER_UF, m &&& ((2 ^ 32 - 1) ^^^ (1 <<< 0))) ∧
      m.testBit 2 = false ∧ m.testBit 1 = false ∧ m.testBit 0 = true) ∨
    (getNextEvent m = (Event.EVENT_NONE, m) ∧
      m.testBit 2 = false ∧ m.testBit 1 = false ∧ m.testBit 0 = false) := by
  cases h2 : m.testBit 2 <;> cases h1 : m.testBit 1 <;> cases h0 : m.testBit 0 <;>
    simp [getNextEvent, LETIMERUF_BIT_POS, LETIMERCOMP1_BIT_POS,
      I2C_TRANSFER_COMPLETE_BIT_POS, h2, h1, h0]

lemma getNextEvent_fst_iff (m : Nat) :
    ((getNextEvent m).1 = Event.EVENT_I2C_TRANSFER_COMPLETE ↔
      m.testBit 2 = true) ∧
    ((getNextEvent m).1 = Event.EVENT_LETIMER_COMP1 ↔
      m.testBit 2 = false ∧ m.testBit 1 = true) ∧
    ((getNextEvent m).1 = Event.EVENT_LETIMER_UF ↔
      m.testBit 2 = false ∧ m.testBit 1 = false ∧ m.testBit 0 = true) ∧
    ((getNextEvent m).1 = Event.EVENT_NONE ↔
      m.testBit 2 = false ∧ m.testBit 1 = false ∧ m.testBit 0 = false) := by
  cases h2 : m.testBit 2 <;> cases h1 : m.testBit 1 <;> cases h0 : m.testBit 0 <;>
    simp [getNextEvent, LETIMERUF_BIT_POS, LETIMERCOMP1_BIT_POS,
      I2C_TRANSFER_COMPLETE_BIT_POS, h2, h1, h0]

lemma getNextEvent_snd_testBit (m : Nat) (hm : m < 2 ^ 32) (i : Nat) :
    ((getNextEvent m).2).testBit i =
      if eventBitPos (getNextEvent m).1 = some i then false
      else m.testBit i := by
  rcases getNextEvent_cases m with ⟨he, hb⟩ | ⟨he, hb⟩ | ⟨he, hb⟩ | ⟨he, hb⟩
  · rw [he]
    show (m &&& ((2 ^ 32 - 1) ^^^ (1 <<< 2))).testBit i = _
    rw [clearBit_testBit m 2 i hm]
    show _ = if eventBitPos Event.EVENT_I2C_TRANSFER_COMPLETE = some i then _ else _
    simp only [eventBitPos, I2C_TRANSFER_COMPLETE_BIT_POS]
    by_cases h : 2 = i <;> simp [h]
  · rw [he]
    show (m &&& ((2 ^ 32 - 1) ^^^ (1 <<< 1))).testBit i = _
    rw [clearBit_testBit m 1 i hm]
    show _ = if eventBitPos Event.EVENT_LETIMER_COMP1 = some i then _ else _
    simp only [eventBitPos, LETIMERCOMP1_BIT_POS]
    by_cases h : 1 = i <;> simp [h]
  · rw [he]
    show (m &&& ((2 ^ 32 - 1) ^^^ (1 <<< 0))).testBit i = _
    rw [clearBit_testBit m 0 i hm]
    show _ = if eventBitPos Event.EVENT_LETIMER_UF = some i then _ else _
    simp only [eventBitPos, LETIMERUF_BIT_POS]
    by_cases h : 0 = i <;> simp [h]
  · rw [he]
    show m.testBit i = if eventBitPos Event.EVENT_NONE = some i then _ else _
    simp [eventBitPos]

lemma clearBit_testBit_lt (m pos i n : Nat) (hi : i < n) :
    (m &&& ((2 ^ n - 1) ^^^ (1 <<< pos))).testBit i =
      (m.testBit i && !(decide (pos = i))) := by
  simp [Nat.testBit_land, Nat.testBit_xor, Nat.one_shiftLeft, Nat.testBit_two_pow,
    Nat.testBit_two_pow_sub_one, hi]

/-- C4: `getNextEvent` returns the highest-priority pending event in the order
I2C-transfer-complete > LETIMER-COMP1 > LETIMER-UF, or EVENT\_NONE when none of
the three bits is set, and as a side effect clears exactly the bit of the
returned kind, leaving every other bit of the mask unchanged. -/
theorem getNextEvent_priority_and_clears_exactly_returned_bit
    (m : Nat) (hm : m < 2 ^ 32) :
    ((getNextEvent m).1 = Event.EVENT_I2C_TRANSFER_COMPLETE ↔
      m.testBit 2 = true) ∧
    ((getNextEvent m).1 = Event.EVENT_LETIMER_COMP1 ↔
      m.testBit 2 = false ∧ m.testBit 1 = true) ∧
    ((getNextEvent m).1 = Event.EVENT_LETIMER_UF ↔
      m.testBit 2 = false ∧ m.testBit 1 = false ∧ m.testBit 0 = true) ∧
    ((getNextEvent m).1 = Event.EVENT_NONE ↔
      m.testBit 2 = false ∧ m.testBit 1 = false ∧ m.testBit 0 = false) ∧
    (∀ i : Nat, ((getNextEvent m).2).testBit i =
      if eventBitPos (getNextEvent m).1 = some i then false
      else m.testBit i) :=
  ⟨(getNextEvent_fst_iff m).1, (getNextEvent_fst_iff m).2.1,
   (getNextEvent_fst_iff m).2.2.1, (getNextEvent_fst_iff m).2.2.2,
   getNextEvent_snd_testBit m hm⟩

/-- Closed witness for C4 at the concrete mask 6 (COMP1 and I2C bits set):
the returned event is I2C-transfer-complete and only bit 2 is cleared. -/
theorem getNextEvent_priority_and_clears_exactly_returned_bit_witness :
    ((getNextEvent 6).1 = Event.EVENT_I2C_TRANSFER_COMPLETE ↔
      Nat.testBit 6 2 = true) ∧
    ((getNextEvent 6).1 = Event.EVENT_LETIMER_COMP1 ↔
      Nat.testBit 6 2 = false ∧ Nat.testBit 6 1 = true) ∧
    ((getNextEvent 6).1 = Event.EVENT_LETIMER_UF ↔
      Nat.testBit 6 2 = false ∧ Nat.testBit 6 1 = false ∧
        Nat.testBit 6 0 = true) ∧
    ((getNextEvent 6).1 = Event.EVENT_NONE ↔
      Nat.testBit 6 2 = false ∧ Nat.testBit 6 1 = false ∧
        Nat.testBit 6 0 = false) ∧
    (∀ i : Nat, ((getNextEvent 6).2).testBit i =
      if eventBitPos (getNextEvent 6).1 = some i then false
      else Nat.testBit 6 i) :=
  getNextEvent_priority_and_clears_exactly_returned_bit 6 (by norm_num)

/-- C5 counterexample: starting from the mask 3 (COMP1 and UF both pending),
the first call returns EVENT\_LETIMER\_COMP1, yet a second call with no
intervening postings returns EVENT\_LETIMER\_UF, not the sentinel
EVENT\_NONE — refuting the claim for this starting mask value. -/
theorem getNextEvent_second_call_not_none_at_mask_3 :
    (getNextEvent 3).1 = Event.EVENT_LETIMER_COMP1 ∧
    (getNextEvent (getNextEvent 3).2).1 = Event.EVENT_LETIMER_UF ∧
    (getNextEvent (getNextEvent 3).2).1 ≠ Event.EVENT_NONE := by
  decide

/-- C5 amended: after one call to `getNextEvent` that returns some event kind,
a second call with no intervening postings returns the sentinel EVENT\_NONE
if and only if exactly one of the three prioritized event bits was set in the
starting mask. -/
theorem getNextEvent_second_call_none_iff_single_bit (m : Nat)
    (h : (getNextEvent m).1 ≠ Event.EVENT_NONE) :
    ((getNextEvent (getNextEvent m).2).1 = Event.EVENT_NONE ↔
      (if m.testBit 0 then 1 else 0) + (if m.testBit 1 then 1 else 0) +
        (if m.testBit 2 then 1 else 0) = 1) := by
  rcases getNextEvent_cases m with ⟨he, hb⟩ | ⟨he, hb⟩ | ⟨he, hb⟩ | ⟨he, hb⟩
  · rw [he]
    show (getNextEvent (m &&& ((2 ^ 32 - 1) ^^^ (1 <<< 2)))).1 = _ ↔ _
    rw [(getNextEvent_fst_iff (m &&& ((2 ^ 32 - 1) ^^^ (1 <<< 2)))).2.2.2]
    rw [clearBit_testBit_lt m 2 0 32 (by norm_num),
        clearBit_testBit_lt m 2 1 32 (by norm_num),
        clearBit_testBit_lt m 2 2 32 (by norm_num)]
    cases h1 : m.testBit 1 <;> cases h0 : m.testBit 0 <;> simp [hb, h1, h0]
  · rw [he]
    show (getNextEvent (m &&& ((2 ^ 32 - 1) ^^^ (1 <<< 1)))).1 = _ ↔ _
    rw [(getNextEvent_fst_iff (m &&& ((2 ^ 32 - 1) ^^^ (1 <<< 1)))).2.2.2]
    rw [clearBit_testBit_lt m 1 0 32 (by norm_num),
        clearBit_testBit_lt m 1 1 32 (by norm_num),
        clearBit_testBit_lt m 1 2 32 (by norm_num)]
    cases h0 : m.testBit 0 <;> simp [hb.1, hb.2, h0]
  · rw [he]
    show (getNextEvent (m &&& ((2 ^ 32 - 1) ^^^ (1 <<< 0)))).1 = _ ↔ _
    rw [(getNextEvent_fst_iff (m &&& ((2 ^ 32 - 1) ^^^ (1 <<< 0)))).2.2.2]
    rw [clearBit_testBit_lt m 0 0 32 (by norm_num),
        clearBit_testBit_lt m 0 1 32 (by norm_num),
        clearBit_testBit_lt m 0 2 32 (by norm_num)]
    simp [hb.1, hb.2.1, hb.2.2]
  · rw [he] at h
    exact absurd rfl h

/-- Closed witness for the amended C5 at mask 4: the first call returns the
I2C event, and the second call returns EVENT\_NONE since exactly one bit
was set. -/
theorem getNextEvent_second_call_none_iff_single_bit_witness :
    (getNextEvent (getNextEvent 4).2).1 = Event.EVENT_NONE ↔
      (if Nat.testBit 4 0 then 1 else 0) + (if Nat.testBit 4 1 then 1 else 0) +
        (if Nat.testBit 4 2 then 1 else 0) = 1 :=
  getNextEvent_second_call_none_iff_single_bit 4 (by decide)

/-- scheduler.c `State_t` (lines 46-52): the five acquisition states. -/
inductive State_t where
  | stateIdle
  | waitForSi7021POR
  | waitForI2CWriteTransfer
  | waitForSi7021Conversion
  | waitForI2CReadTransfer
  deriving DecidableEq, Repr

/-- The fields of the external `ble_data_struct_t` session context read or
written by `temperature_state_machine_bt` (connection-open flag,
indications-armed flag, indication-in-flight flag). -/
structure BleData where
  connection_open : Bool
  ok_to_send_htm_indications : Bool
  indication_in_flight : Bool
  deriving DecidableEq, Repr

/-- A call to the external display collaborator on row DISPLAY\_ROW\_TEMPVALUE:
either printing the numeric reading or clearing the row. -/
inductive DisplayCall where
  | printTemp (value : Nat)
  | clearRow
  deriving DecidableEq, Repr

/-- scheduler.c line 66: the fixed flags byte of the HTM reading buffer. -/
def flags : Nat := 0x00

/-- The exact-rational value of the C double expression
`((Si7021_data*175.72)/65536) - 46.85` (scheduler.c line 294), the Si7021
AN607 conversion formula.  Doubles are modelled as exact rationals. -/
def decodeTempQ (Si7021_data : Nat) : ℚ :=
  ((Si7021_data : ℚ) * (17572 / 100)) / 65536 - 4685 / 100

/-- Truncation toward zero, the C conversion of an in-range double to an
integer type. -/
def truncQ (q : ℚ) : ℤ :=
  if 0 ≤ q then ⌊q⌋ else ⌈q⌉

/-- scheduler.c lines 216 and 294: `uint32_t temperature_reading = ((Si7021_data*175.72)/65536) - 46.85;`.
The double-to-uint32 store truncates toward zero and, for values ≤ -1
(undefined behavior in ISO C), is modelled as the usual ARM soft-float
wrap modulo 2^32. -/
def temperature_reading (Si7021_data : Nat) : Nat :=
  ((truncQ (decodeTempQ Si7021_data)) % (2 ^ 32 : ℤ)).toNat

/-- Modelled from the spec: the 4-byte mantissa-plus-exponent float encoding
used downstream (the INT32\_TO\_FLOAT macro lives outside the sources) —
mantissa in the low 24 bits, exponent byte in the top 8 bits. -/
def INT32_TO_FLOAT (m : Nat) (e : ℤ) : Nat :=
  (m % 2 ^ 24) ||| ((e % 2 ^ 8).toNat <<< 24)

/-- Modelled from the spec: the little-endian byte serialization of a uint32
performed by the UINT32\_TO\_BITSTREAM macro (which lives outside the
sources). -/
def UINT32_TO_BYTES_LE (x : Nat) : List Nat :=
  [x % 256, (x >>> 8) % 256, (x >>> 16) % 256, (x >>> 24) % 256]

/-- The 5-byte HTM reading buffer built at scheduler.c lines 289-302:
buffer[0] is the fixed flags byte, bytes 1-4 are
`INT32_TO_FLOAT(temperature_reading*1000, -3)` serialized little-endian; the
uint32 multiplication by 1000 wraps modulo 2^32. -/
def htm_buffer (Si7021_data : Nat) : List Nat :=
  flags :: UINT32_TO_BYTES_LE
    (INT32_TO_FLOAT ((temperature_reading Si7021_data * 1000) % 2 ^ 32) (-3))

/-- The externally observable effects of one dispatch of
`temperature_state_machine_bt`: the next protocol state, the 5-byte buffer
written to the GATT database (if any), the buffer sent as an indication
(if any), the buffer enqueued on the external retry queue (if any), the
updated indication-in-flight flag, and the display calls issued, in order. -/
structure StepResult where
  nextState : State_t
  attrWrite : Option (List Nat)
  sentIndication : Option (List Nat)
  enqueued : Option (List Nat)
  indication_in_flight : Bool
  displays : List DisplayCall
  deriving DecidableEq, Repr

/-- scheduler.c `temperature_state_machine_bt` (lines 213-363).  Inputs: the
dispatched event (whether its message id is `sl_bt_evt_system_external_signal_id`,
and its `extsignals` bitmask), the persistent static state, the BLE session
context, the external retry-queue depth `get_queue_depth()`, and the uint16
value `I2C_Get_Data()` would return.  Hardware-only calls (GPIO power, timer
arming, I2C transfers, NVIC) have no effect on any datum the claims mention
and are not recorded. -/
def temperature_state_machine_bt (is_external_signal : Bool) (extsignals : Nat)
    (currentState : State_t) (bleData : BleData) (queue_depth : Nat)
    (i2c_data : Nat) : StepResult :=
  let base : StepResult :=
    { nextState := currentState, attrWrite := none, sentIndication := none,
      enqueued := none, indication_in_flight := bleData.indication_in_flight,
      displays := [] }
  let r :=
    if is_external_signal && bleData.connection_open &&
        bleData.ok_to_send_htm_indications then
      match currentState with
      | State_t.stateIdle =>
          if extsignals.testBit LETIMERUF_BIT_POS then
            { base with nextState := State_t.waitForSi7021POR }
          else base
      | State_t.waitForSi7021POR =>
          if extsignals.testBit LETIMERCOMP1_BIT_POS then
            { base with nextState := State_t.waitForI2CWriteTransfer }
          else base
      | State_t.waitForI2CWriteTransfer =>
          if extsignals.testBit I2C_TRANSFER_COMPLETE_BIT_POS then
            { base with nextState := State_t.waitForSi7021Conversion }
          else base
      | State_t.waitForSi7021Conversion =>
          if extsignals.testBit LETIMERCOMP1_BIT_POS then
            { base with nextState := State_t.waitForI2CReadTransfer }
          else base
      | State_t.waitForI2CReadTransfer =>
          if extsignals.testBit I2C_TRANSFER_COMPLETE_BIT_POS then
            let Si7021_data := i2c_data % 2 ^ 16
            let htm_temperature_buffer := htm_buffer Si7021_data
            let afterSend :=
              if bleData.connection_open && bleData.ok_to_send_htm_indications then
                if !((bleData.indication_in_flight == false) ||
                    (queue_depth > 0)) then
                  { base with
                      sentIndication := some htm_temperature_buffer,
                      indication_in_flight := true,
                      displays :=
                        [DisplayCall.printTemp (temperature_reading Si7021_data)] }
                else
                  { base with
                      enqueued := some htm_temperature_buffer,
                      displays :=
                        [DisplayCall.printTemp (temperature_reading Si7021_data)] }
              else
                { base with displays := [DisplayCall.clearRow] }
            { afterSend with
                attrWrite := some htm_temperature_buffer,
                nextState := State_t.stateIdle }
          else base
    else base
  if bleData.connection_open == false ||
      bleData.ok_to_send_htm_indications == false then
    { r with displays := r.displays ++ [DisplayCall.clearRow] }
  else r

lemma temperature_reading_27273 : temperature_reading 27273 = 26 := by
  have h1 : truncQ (decodeTempQ 27273) = 26 := by
    rw [truncQ, if_pos (by norm_num [decodeTempQ])]
    rw [show decodeTempQ 27273 = 43051249 / 1638400 by norm_num [decodeTempQ]]
    rw [Int.floor_eq_iff]
    constructor <;> norm_num
  rw [temperature_reading, h1]
  norm_num
  rfl

lemma htm_buffer_27273 : htm_buffer 27273 = [0, 144, 101, 0, 253] := by
  simp only [htm_buffer, temperature_reading_27273]
  decide

example : decodeTempQ 0 = -4685 / 100 := by norm_num [decodeTempQ]

example :
    (temperature_state_machine_bt true 1 State_t.stateIdle
      ⟨true, true, false⟩ 0 0).nextState = State_t.waitForSi7021POR := by
  decide

example :
    (temperature_state_machine_bt true 4 State_t.waitForI2CReadTransfer
      ⟨true, true, false⟩ 0 27273).enqueued =
        some [0, 144, 101, 0, 253] := by
  have h : (27273 : Nat) % 2 ^ 16 = 27273 := by norm_num
  simp only [temperature_state_machine_bt, h, htm_buffer_27273]
  decide

/-- scheduler.c `Discovery_States_t` (lines 54-62): the seven discovery
states. -/
inductive Discovery_States_t where
  | State_1
  | State_2
  | State_3
  | State_4
  | State_5
  | State_6
  | State_7
  deriving DecidableEq, Repr

/-- The BLE stack message classes that `Discovery_State_Machine` compares
`SL_BT_MSG_ID(evt->header)` against, plus a catch-all for every other
message id. -/
inductive BtMsgId where
  | connection_opened
  | gatt_procedure_completed
  | connection_closed
  | other
  deriving DecidableEq, Repr

/-- scheduler.c `Discovery_State_Machine` (lines 368-517), projected onto its
state transitions: each case keeps the current state by default and advances
only on its listed message id (connection-opened in State\_1,
gatt-procedure-completed in States 2-6, connection-closed in State\_7).
The GATT calls and handle bookkeeping performed alongside each advance touch
no datum the state transition depends on. -/
def Discovery_State_Machine (msgId : BtMsgId) (currentState : Discovery_States_t) :
    Discovery_States_t :=
  match currentState with
  | Discovery_States_t.State_1 =>
      if msgId = BtMsgId.connection_opened then Discovery_States_t.State_2
      else Discovery_States_t.State_1
  | Discovery_States_t.State_2 =>
      if msgId = BtMsgId.gatt_procedure_completed then Discovery_States_t.State_3
      else Discovery_States_t.State_2
  | Discovery_States_t.State_3 =>
      if msgId = BtMsgId.gatt_procedure_completed then Discovery_States_t.State_4
      else Discovery_States_t.State_3
  | Discovery_States_t.State_4 =>
      if msgId = BtMsgId.gatt_procedure_completed then Discovery_States_t.State_5
      else Discovery_States_t.State_4
  | Discovery_States_t.State_5 =>
      if msgId = BtMsgId.gatt_procedure_completed then Discovery_States_t.State_6
      else Discovery_States_t.State_5
  | Discovery_States_t.State_6 =>
      if msgId = BtMsgId.gatt_procedure_completed then Discovery_States_t.State_7
      else Discovery_States_t.State_6
  | Discovery_States_t.State_7 =>
      if msgId = BtMsgId.connection_closed then Discovery_States_t.State_1
      else Discovery_States_t.State_7

/-- C7: from discovery state 1, a connection-opened event transitions to
state 2; five procedure-completed events then drive the machine through
states 3, 4, 5, 6, 7 in order; a sixth procedure-completed event in state 7
leaves the state unchanged; and a connection-closed event in state 7 resets
the machine to state 1. -/
theorem discovery_trace_and_terminal_behavior :
    Discovery_State_Machine BtMsgId.connection_opened
      Discovery_States_t.State_1 = Discovery_States_t.State_2 ∧
    Discovery_State_Machine BtMsgId.gatt_procedure_completed
      Discovery_States_t.State_2 = Discovery_States_t.State_3 ∧
    Discovery_State_Machine BtMsgId.gatt_procedure_completed
      Discovery_States_t.State_3 = Discovery_States_t.State_4 ∧
    Discovery_State_Machine BtMsgId.gatt_procedure_completed
      Discovery_States_t.State_4 = Discovery_States_t.State_5 ∧
    Discovery_State_Machine BtMsgId.gatt_procedure_completed
      Discovery_States_t.State_5 = Discovery_States_t.State_6 ∧
    Discovery_State_Machine BtMsgId.gatt_procedure_completed
      Discovery_States_t.State_6 = Discovery_States_t.State_7 ∧
    Discovery_State_Machine BtMsgId.gatt_procedure_completed
      Discovery_States_t.State_7 = Discovery_States_t.State_7 ∧
    Discovery_State_Machine BtMsgId.connection_closed
      Discovery_States_t.State_7 = Discovery_States_t.State_1 := by
  decide

/-- C8: in every discovery state from 2 to 6 a connection-closed event leaves
the state unchanged — only state 7 reacts to disconnection (which it does, by
resetting to state 1). -/
theorem discovery_closed_ignored_mid_discovery :
    Discovery_State_Machine BtMsgId.connection_closed
      Discovery_States_t.State_2 = Discovery_States_t.State_2 ∧
    Discovery_State_Machine BtMsgId.connection_closed
      Discovery_States_t.State_3 = Discovery_States_t.State_3 ∧
    Discovery_State_Machine BtMsgId.connection_closed
      Discovery_States_t.State_4 = Discovery_States_t.State_4 ∧
    Discovery_State_Machine BtMsgId.connection_closed
      Discovery_States_t.State_5 = Discovery_States_t.State_5 ∧
    Discovery_State_Machine BtMsgId.connection_closed
      Discovery_States_t.State_6 = Discovery_States_t.State_6 ∧
    Discovery_State_Machine BtMsgId.connection_closed
      Discovery_States_t.State_7 = Discovery_States_t.State_1 := by
  decide

/-- The single trigger bit each acquisition state checks
(scheduler.c lines 237, 250, 261, 274, 286). -/
def listedBit : State_t → Nat
  | State_t.stateIdle => LETIMERUF_BIT_POS
  | State_t.waitForSi7021POR => LETIMERCOMP1_BIT_POS
  | State_t.waitForI2CWriteTransfer => I2C_TRANSFER_COMPLETE_BIT_POS
  | State_t.waitForSi7021Conversion => LETIMERCOMP1_BIT_POS
  | State_t.waitForI2CReadTransfer => I2C_TRANSFER_COMPLETE_BIT_POS

/-- C6: with the three acquisition preconditions holding at every dispatch,
the trigger sequence [underflow, compare-match, bus-complete, compare-match,
bus-complete] drives the machine from Idle through the five states in order
and back to Idle; and in every state, a dispatch whose signal mask does not
contain that state's listed trigger bit leaves the state unchanged. -/
theorem acquisition_cycle_and_ignores_unlisted_triggers :
    (∀ (ble : BleData) (qd raw : Nat),
      ble.connection_open = true → ble.ok_to_send_htm_indications = true →
      (temperature_state_machine_bt true 1 State_t.stateIdle
          ble qd raw).nextState = State_t.waitForSi7021POR ∧
      (temperature_state_machine_bt true 2 State_t.waitForSi7021POR
          ble qd raw).nextState = State_t.waitForI2CWriteTransfer ∧
      (temperature_state_machine_bt true 4 State_t.waitForI2CWriteTransfer
          ble qd raw).nextState = State_t.waitForSi7021Conversion ∧
      (temperature_state_machine_bt true 2 State_t.waitForSi7021Conversion
          ble qd raw).nextState = State_t.waitForI2CReadTransfer ∧
      (temperature_state_machine_bt true 4 State_t.waitForI2CReadTransfer
          ble qd raw).nextState = State_t.stateIdle) ∧
    (∀ (st : State_t) (m : Nat) (ble : BleData) (qd raw : Nat),
      ble.connection_open = true → ble.ok_to_send_htm_indications = true →
      m.testBit (listedBit st) = false →
      (temperature_state_machine_bt true m st ble qd raw).nextState = st) := by
  constructor
  · intro ble qd raw h1 h2
    have t10 : Nat.testBit 1 0 = true := by decide
    have t21 : Nat.testBit 2 1 = true := by decide
    have t42 : Nat.testBit 4 2 = true := by decide
    refine ⟨?_, ?_, ?_, ?_, ?_⟩ <;>
      simp [temperature_state_machine_bt, h1, h2, t10, t21, t42,
        LETIMERUF_BIT_POS, LETIMERCOMP1_BIT_POS, I2C_TRANSFER_COMPLETE_BIT_POS]
  · intro st m ble qd raw h1 h2 h3
    cases st <;>
      simp_all [temperature_state_machine_bt, listedBit, LETIMERUF_BIT_POS,
        LETIMERCOMP1_BIT_POS, I2C_TRANSFER_COMPLETE_BIT_POS]

/-- Closed witness for C6: the first cycle step and one ignored trigger,
both at concrete inputs. -/
theorem acquisition_cycle_and_ignores_unlisted_triggers_witness :
    (temperature_state_machine_bt true 1 State_t.stateIdle
        ⟨true, true, false⟩ 0 0).nextState = State_t.waitForSi7021POR ∧
    (temperature_state_machine_bt true 2 State_t.stateIdle
        ⟨true, true, false⟩ 0 0).nextState = State_t.stateIdle :=
  ⟨(acquisition_cycle_and_ignores_unlisted_triggers.1
      ⟨true, true, false⟩ 0 0 rfl rfl).1,
   acquisition_cycle_and_ignores_unlisted_triggers.2
      State_t.stateIdle 2 ⟨true, true, false⟩ 0 0 rfl rfl (by decide)⟩

/-- C1 (code bug): on the read-complete transition with connection open and
indications armed, the condition at scheduler.c line 325,
`!((indication_in_flight == false) || (queue_depth > 0))`, sends exactly when
an indication IS in flight and the queue is empty — the inverse of the
in-flight half of the documented condition (scheduler.c lines 312-316).
With no indication in flight and an empty queue the buffer is enqueued and
the in-flight flag stays false; with an indication in flight and an empty
queue the code sends another indication. -/
theorem read_complete_send_condition_inverted :
    (temperature_state_machine_bt true 4 State_t.waitForI2CReadTransfer
        ⟨true, true, false⟩ 0 27273).sentIndication = none ∧
    (temperature_state_machine_bt true 4 State_t.waitForI2CReadTransfer
        ⟨true, true, false⟩ 0 27273).enqueued = some [0, 144, 101, 0, 253] ∧
    (temperature_state_machine_bt true 4 State_t.waitForI2CReadTransfer
        ⟨true, true, false⟩ 0 27273).indication_in_flight = false ∧
    (temperature_state_machine_bt true 4 State_t.waitForI2CReadTransfer
        ⟨true, true, true⟩ 0 27273).sentIndication =
          some [0, 144, 101, 0, 253] ∧
    (temperature_state_machine_bt true 4 State_t.waitForI2CReadTransfer
        ⟨true, true, true⟩ 0 27273).enqueued = none := by
  have h : (27273 : Nat) % 2 ^ 16 = 27273 := by norm_num
  refine ⟨?_, ?_, ?_, ?_, ?_⟩ <;>
    · simp only [temperature_state_machine_bt, h, htm_buffer_27273]
      decide

/-- C2 counterexample: in state AwaitingReadComplete with the
bus-transfer-complete bit set but connection-open false, the dispatch does
NOT transition to Idle and does NOT write the attribute value — the outer
precondition guard (scheduler.c lines 227-229) skips the whole switch. -/
theorem read_complete_connection_closed_counterexample :
    (temperature_state_machine_bt true 4 State_t.waitForI2CReadTransfer
        ⟨false, true, false⟩ 0 27273).nextState =
      State_t.waitForI2CReadTransfer ∧
    (temperature_state_machine_bt true 4 State_t.waitForI2CReadTransfer
        ⟨false, true, false⟩ 0 27273).attrWrite = none := by
  decide

/-- C2 amended: in state AwaitingReadComplete with the bus-transfer-complete
bit set but connection-open false, the dispatch performs no state transition
(the machine stays in AwaitingReadComplete), writes no attribute value,
neither sends nor enqueues an indication, and clears the display field. -/
theorem read_complete_connection_closed_behavior
    (m : Nat) (ble : BleData) (qd raw : Nat)
    (hbit : m.testBit I2C_TRANSFER_COMPLETE_BIT_POS = true)
    (hconn : ble.connection_open = false) :
    (temperature_state_machine_bt true m State_t.waitForI2CReadTransfer
        ble qd raw).nextState = State_t.waitForI2CReadTransfer ∧
    (temperature_state_machine_bt true m State_t.waitForI2CReadTransfer
        ble qd raw).attrWrite = none ∧
    (temperature_state_machine_bt true m State_t.waitForI2CReadTransfer
        ble qd raw).sentIndication = none ∧
    (temperature_state_machine_bt true m State_t.waitForI2CReadTransfer
        ble qd raw).enqueued = none ∧
    (temperature_state_machine_bt true m State_t.waitForI2CReadTransfer
        ble qd raw).displays = [DisplayCall.clearRow] := by
  refine ⟨?_, ?_, ?_, ?_, ?_⟩ <;>
    simp [temperature_state_machine_bt, hconn]

/-- Closed witness for the amended C2 at a concrete input. -/
theorem read_complete_connection_closed_behavior_witness :
    (temperature_state_machine_bt true 4 State_t.waitForI2CReadTransfer
        ⟨false, true, false⟩ 0 27273).nextState =
      State_t.waitForI2CReadTransfer ∧
    (temperature_state_machine_bt true 4 State_t.waitForI2CReadTransfer
        ⟨false, true, false⟩ 0 27273).attrWrite = none ∧
    (temperature_state_machine_bt true 4 State_t.waitForI2CReadTransfer
        ⟨false, true, false⟩ 0 27273).sentIndication = none ∧
    (temperature_state_machine_bt true 4 State_t.waitForI2CReadTransfer
        ⟨false, true, false⟩ 0 27273).enqueued = none ∧
    (temperature_state_machine_bt true 4 State_t.waitForI2CReadTransfer
        ⟨false, true, false⟩ 0 27273).displays = [DisplayCall.clearRow] :=
  read_complete_connection_closed_behavior 4 ⟨false, true, false⟩ 0 27273
    (by decide) rfl

/-- C3 counterexample: when the failing precondition is the event class (the
event is not an external-signal event) while the connection is open and
indications are armed, the dispatch does NOT clear the displayed value (it
issues no display call at all), though the state is indeed preserved. -/
theorem precondition_failure_no_display_clear_counterexample :
    (temperature_state_machine_bt false 4 State_t.stateIdle
        ⟨true, true, false⟩ 0 0).displays = [] ∧
    (temperature_state_machine_bt false 4 State_t.stateIdle
        ⟨true, true, false⟩ 0 0).nextState = State_t.stateIdle := by
  decide

/-- C3 amended: whenever at least one of the three preconditions fails, the
dispatch performs no state transition; the displayed value is cleared if and
only if connection-open or notifications-armed is false — when only the
event-class precondition fails, the display is left untouched. -/
theorem precondition_failure_behavior
    (is_ext : Bool) (m : Nat) (st : State_t) (ble : BleData) (qd raw : Nat)
    (h : ¬(is_ext = true ∧ ble.connection_open = true ∧
      ble.ok_to_send_htm_indications = true)) :
    (temperature_state_machine_bt is_ext m st ble qd raw).nextState = st ∧
    (temperature_state_machine_bt is_ext m st ble qd raw).displays =
      (if ble.connection_open = false ∨
          ble.ok_to_send_htm_indications = false then
        [DisplayCall.clearRow] else []) := by
  rcases ble with ⟨co, ok, fl⟩
  cases is_ext <;> cases co <;> cases ok <;>
    simp_all [temperature_state_machine_bt]

/-- Closed witness for the amended C3 at a concrete input (event-class
precondition failing, connection open, indications armed). -/
theorem precondition_failure_behavior_witness :
    (temperature_state_machine_bt false 0 State_t.waitForSi7021POR
        ⟨true, true, false⟩ 0 0).nextState = State_t.waitForSi7021POR ∧
    (temperature_state_machine_bt false 0 State_t.waitForSi7021POR
        ⟨true, true, false⟩ 0 0).displays =
      (if (BleData.mk true true false).connection_open = false ∨
          (BleData.mk true true false).ok_to_send_htm_indications = false then
        [DisplayCall.clearRow] else []) :=
  precondition_failure_behavior false 0 State_t.waitForSi7021POR
    ⟨true, true, false⟩ 0 0 (by simp)

/-- C9 counterexample: raw code 0x6A89 (27273) does NOT decode to
approximately 26.99 °C — the conversion formula gives a value strictly
between 26.27 and 26.28 — and the buffer actually published on the
read-complete transition carries the truncated-and-scaled mantissa 26000
(bytes 144, 101 little-endian), not one near 26990. -/
theorem decode_0x6A89_not_26_99 :
    (2627 / 100 : ℚ) < decodeTempQ 27273 ∧
    decodeTempQ 27273 < (2628 / 100 : ℚ) ∧
    (temperature_state_machine_bt true 4 State_t.waitForI2CReadTransfer
        ⟨true, true, false⟩ 0 27273).attrWrite =
      some [0, 144, 101, 0, 253] := by
  refine ⟨by norm_num [decodeTempQ], by norm_num [decodeTempQ], ?_⟩
  have h : (27273 : Nat) % 2 ^ 16 = 27273 := by norm_num
  simp only [temperature_state_machine_bt, h, htm_buffer_27273]
  decide

/-- C9 amended: on the read-complete transition (connection open, indications
armed) the 2-byte payload is interpreted as an unsigned 16-bit raw code whose
exact conversion value is `raw * 175.72 / 65536 - 46.85`; the published
5-byte buffer is the fixed flags byte followed by that value truncated to a
uint32, multiplied by 1000 modulo 2^32, in the little-endian
mantissa-plus-exponent encoding with exponent -3; raw code 0x6A89 decodes to
approximately 26.28 °C (strictly between 26.27 and 26.28). -/
theorem htm_encoding_from_rational_decode
    (raw qd : Nat) (ble : BleData) (hraw : raw < 2 ^ 16)
    (h1 : ble.connection_open = true)
    (h2 : ble.ok_to_send_htm_indications = true) :
    (temperature_state_machine_bt true 4 State_t.waitForI2CReadTransfer
        ble qd raw).attrWrite =
      some (flags :: UINT32_TO_BYTES_LE (INT32_TO_FLOAT
        (((truncQ (decodeTempQ raw) % (2 ^ 32 : ℤ)).toNat * 1000) % 2 ^ 32)
        (-3))) ∧
    (2627 / 100 : ℚ) < decodeTempQ 27273 ∧
    decodeTempQ 27273 < (2628 / 100 : ℚ) := by
  refine ⟨?_, by norm_num [decodeTempQ], by norm_num [decodeTempQ]⟩
  have t42 : Nat.testBit 4 2 = true := by decide
  have hmod : raw % 65536 = raw := by
    apply Nat.mod_eq_of_lt
    calc raw < 2 ^ 16 := hraw
    _ = 65536 := by norm_num
  simp [temperature_state_machine_bt, htm_buffer, temperature_reading,
    hmod, h1, h2, t42, I2C_TRANSFER_COMPLETE_BIT_POS]

/-- Closed witness for the amended C9 at raw code 0x6A89. -/
theorem htm_encoding_from_rational_decode_witness :
    (temperature_state_machine_bt true 4 State_t.waitForI2CReadTransfer
        ⟨true, true, false⟩ 0 27273).attrWrite =
      some (flags :: UINT32_TO_BYTES_LE (INT32_TO_FLOAT
        (((truncQ (decodeTempQ 27273) % (2 ^ 32 : ℤ)).toNat * 1000) % 2 ^ 32)
        (-3))) ∧
    (2627 / 100 : ℚ) < decodeTempQ 27273 ∧
    decodeTempQ 27273 < (2628 / 100 : ℚ) :=
  htm_encoding_from_rational_decode 27273 0 ⟨true, true, false⟩
    (by norm_num) rfl rfl

/-- C10 counterexample: for raw code 17400 the conversion formula is negative
(about -0.196), yet the stored uint32 value is 0, not a large wrapped
number — a negative result of magnitude below one truncates to zero before
any wrap can occur. -/
theorem negative_fraction_stores_zero :
    decodeTempQ 17400 < 0 ∧ temperature_reading 17400 = 0 := by
  constructor
  · norm_num [decodeTempQ]
  · have h1 : truncQ (decodeTempQ 17400) = 0 := by
      rw [truncQ, if_neg (by norm_num [decodeTempQ])]
      rw [Int.ceil_eq_zero_iff]
      constructor <;> norm_num [decodeTempQ]
    rw [temperature_reading, h1]
    rfl

/-- C10 amended: the reading is stored in a uint32, so raw 0x6A89 is
published as 26 (the formula value truncated); a raw code whose formula value
is at most -1 wraps modulo 2^32 to a value in the top 47 naturals below
2^32; and a raw code whose formula value lies in (-1, 0) stores 0. -/
theorem uint32_truncation_and_wrap (raw : Nat) :
    temperature_reading 27273 = 26 ∧
    (decodeTempQ raw ≤ -1 →
      2 ^ 32 - 47 ≤ temperature_reading raw ∧
      temperature_reading raw < 2 ^ 32) ∧
    (-1 < decodeTempQ raw → decodeTempQ raw < 0 →
      temperature_reading raw = 0) := by
  have hlow : (-4685 / 100 : ℚ) ≤ decodeTempQ raw := by
    have h0 : (0 : ℚ) ≤ ((raw : ℚ) * (17572 / 100)) / 65536 := by positivity
    rw [decodeTempQ]
    linarith
  refine ⟨temperature_reading_27273, ?_, ?_⟩
  · intro hq
    have hq0 : ¬(0 ≤ decodeTempQ raw) := by linarith
    have hc1 : ⌈decodeTempQ raw⌉ ≤ -1 := by
      rw [Int.ceil_le]
      push_cast
      linarith
    have hc2 : (-47 : ℤ) < ⌈decodeTempQ raw⌉ := by
      rw [Int.lt_ceil]
      push_cast
      linarith
    rw [temperature_reading, truncQ, if_neg hq0]
    have h32 : ((2 : ℤ) ^ 32) = 4294967296 := by norm_num
    have h32n : ((2 : ℕ) ^ 32) = 4294967296 := by norm_num
    rw [h32, h32n]
    omega
  · intro hq1 hq2
    have hq0 : ¬(0 ≤ decodeTempQ raw) := by linarith
    have hc : ⌈decodeTempQ raw⌉ = 0 := by
      rw [Int.ceil_eq_zero_iff]
      constructor
      · push_cast
        linarith
      · linarith
    rw [temperature_reading, truncQ, if_neg hq0, hc]
    rfl

/-- Closed witness for the amended C10: raw 0 has formula value -46.85 ≤ -1
and stores a wrapped value in the top 47; raw 17400 has formula value in
(-1, 0) and stores 0. -/
theorem uint32_truncation_and_wrap_witness :
    (2 ^ 32 - 47 ≤ temperature_reading 0 ∧ temperature_reading 0 < 2 ^ 32) ∧
    temperature_reading 17400 = 0 :=
  ⟨(uint32_truncation_and_wrap 0).2.1 (by norm_num [decodeTempQ]),
   (uint32_truncation_and_wrap 17400).2.2 (by norm_num [decodeTempQ])
     (by norm_num [decodeTempQ])⟩
